import Mathlib

/-!
Shallow embedding of `stackstac/rio_reader.py` (the `AutoParallelRioReader`
strategy-selecting reader), used to check the natural-language specification
against the code.

Pixel values, scales, offsets and fill values are modelled as integers.
Numpy masked arrays are modelled as lists of cells carrying a value and a
masked flag; numpy 2-D / 3-D arrays from a delegate `read` are the two
constructors of `NpRes`.  Exceptions are modelled structurally (an error
code), and the f-string error messages of the source are modelled as
structured error values carrying exactly the data interpolated into the
message (locator, window, band count, wrapped cause).
-/

deriving instance DecidableEq for Except

namespace Stackstac

/-- A rasterio `Window`: row/column offset plus height and width. -/
structure Window where
  row_off : Nat
  col_off : Nat
  height : Nat
  width : Nat
  deriving Repr, DecidableEq

/-- An exception raised by the native raster library, identified by a code. -/
structure Exc where
  code : Nat
  deriving Repr, DecidableEq

/-- Modelled from the spec: `exception_matches` from `nodata_reader.py` (not in
src/).  The spec calls the matching rule a caller-supplied predicate over a
recognized-error set; it is modelled as membership of the exception's code in
the configured set. -/
def exception_matches (e : Exc) (errors_as_nodata : List Nat) : Bool :=
  errors_as_nodata.contains e.code

/-- Modelled from the spec: `nodata_for_window` from `nodata_reader.py` (not in
src/): a plain window-shaped buffer of the fill value. -/
def nodata_for_window (w : Window) (fill : Int) : List (List Int) :=
  List.replicate w.height (List.replicate w.width fill)

/-- One cell of a numpy masked array: a data value and a masked flag. -/
structure MCell where
  val : Int
  m : Bool
  deriving Repr, DecidableEq

/-- The array a delegate `read` returns: 2-D (`NodataReader`, a plain array
modelled with all-unmasked cells) or 3-D (a native rasterio masked read,
channels outermost). -/
inductive NpRes where
  | a2 : List (List MCell) → NpRes
  | a3 : List (List (List MCell)) → NpRes
  deriving Repr, DecidableEq

/-- The intermediate masked array after the channel-count handling in
`AutoParallelRioReader.read`: 1-D or 2-D. -/
inductive Mid where
  | m1 : List MCell → Mid
  | m2 : List (List MCell) → Mid
  deriving Repr, DecidableEq

/-- The dense (mask-free) array `AutoParallelRioReader.read` returns. -/
inductive Out where
  | o1 : List Int → Out
  | o2 : List (List Int) → Out
  deriving Repr, DecidableEq

/-- Errors raised by the reader.  Each constructor models one `raise` site of
`rio_reader.py`, carrying the data its f-string message interpolates:
`openError` is the RuntimeError wrapping a failed native open (locator +
cause); `bandCountError` the RuntimeError for a band count other than one
(locator + count); `propagated` an exception from geometry inspection or
`WarpedVRT` construction that is re-raised unwrapped; `readError` the
RuntimeError wrapping a failed delegate read (locator + window + cause);
`shapeError` the RuntimeError for an unexpected result shape. -/
inductive RioError where
  | openError (url : String) (cause : Exc)
  | bandCountError (url : String) (count : Nat)
  | propagated (e : Exc)
  | readError (url : String) (window : Window) (cause : Exc)
  | shapeError (shape : List Nat)
  deriving Repr, DecidableEq

/-- Warnings emitted via `warnings.warn`, carrying the interpolated data. -/
inductive Warn where
  | openWarn (url : String) (e : Exc)
  | readWarn (url : String) (window : Window) (e : Exc)
  deriving Repr, DecidableEq

/-- The observable behaviour of the external resource at the reader's locator:
whether the native open raises, the band count, the driver name, the native
geometry parameters (compared against the spec's `vrt_params`), and whether
geometry inspection or `WarpedVRT` construction raises. -/
structure Resource where
  openErr : Option Exc
  count : Nat
  driver : String
  currentParams : Nat
  geomErr : Option Exc
  vrtErr : Option Exc
  deriving Repr, DecidableEq

/-- The delegate `ThreadsafeRioDataset` chosen by `_open`: the `NodataReader`
fallback, a `ThreadLocalRioDataset`, or a `SingleThreadedRioDataset` (the
latter two recording whether a `WarpedVRT` was wrapped around the dataset). -/
inductive Delegate where
  | nodata
  | threadLocal (hasVrt : Bool)
  | singleThreaded (hasVrt : Bool)
  deriving Repr, DecidableEq

/-- Modelled from the spec: `RasterSpec` (from `raster_spec.py`, not in src/)
is consumed only through its `vrt_params`, compared by value against the
resource's native geometry; it is modelled as an opaque parameter value. -/
structure RasterSpecM where
  vrt_params : Nat
  deriving Repr, DecidableEq

/-- The GDAL drivers safe for one-independent-handle-per-thread access
(`MULTITHREADED_DRIVER_ALLOWLIST = {"GTiff"}`). -/
def MULTITHREADED_DRIVER_ALLOWLIST : List String := ["GTiff"]

/-- `DEFAULT_GDAL_ENV`, as an opaque environment value. -/
def DEFAULT_GDAL_ENV : Nat := 0

/-- The `AutoParallelRioReader`: its constructor fields plus the lazily
populated `_dataset`.  The lock `_dataset_lock` has no sequential content and
is modelled by the atomicity of each step. -/
structure AutoParallelRioReader where
  url : String
  spec : RasterSpecM
  resampling : Nat
  dtype : Nat
  fill_value : Int
  scale_offset : Int × Int
  gdal_env : Nat
  errors_as_nodata : List Nat
  _dataset : Option Delegate
  deriving Repr, DecidableEq

/-- The `PickleState` returned by `__getstate__`: exactly the eight
constructor fields, no handle or lock state. -/
structure PickleState where
  url : String
  spec : RasterSpecM
  resampling : Nat
  dtype : Nat
  fill_value : Int
  scale_offset : Int × Int
  gdal_env : Nat
  errors_as_nodata : List Nat
  deriving Repr, DecidableEq

/-- `AutoParallelRioReader.__init__`: stores the constructor arguments
(defaulting `gdal_env`) and sets `_dataset = None`; it performs no I/O. -/
def AutoParallelRioReader.init (url : String) (spec : RasterSpecM)
    (resampling : Nat) (dtype : Nat) (fill_value : Int)
    (scale_offset : Int × Int) (gdal_env : Option Nat)
    (errors_as_nodata : List Nat) : AutoParallelRioReader :=
  { url := url, spec := spec, resampling := resampling, dtype := dtype,
    fill_value := fill_value, scale_offset := scale_offset,
    gdal_env := gdal_env.getD DEFAULT_GDAL_ENV,
    errors_as_nodata := errors_as_nodata, _dataset := none }

/-- The outcome of `AutoParallelRioReader._open`: the chosen delegate or the
raised error, the warnings emitted, and whether the just-opened native dataset
was explicitly closed before raising. -/
structure OpenStep where
  result : Except RioError Delegate
  warns : List Warn
  dsClosed : Bool
  deriving Repr, DecidableEq

/-- `AutoParallelRioReader._open`, step for step: open the native dataset
(a recognized failure warns and degrades to `NodataReader`, an unrecognized
one raises a wrapping RuntimeError); reject a band count other than one after
closing the dataset; inspect geometry (errors propagate unwrapped); build a
`WarpedVRT` when the native geometry differs from the spec's `vrt_params`
(errors propagate unwrapped); finally pick `ThreadLocalRioDataset` when the
driver is in `MULTITHREADED_DRIVER_ALLOWLIST`, else
`SingleThreadedRioDataset`. -/
def AutoParallelRioReader._open (r : AutoParallelRioReader)
    (res : Resource) : OpenStep :=
  match res.openErr with
  | some e =>
      if exception_matches e r.errors_as_nodata then
        { result := .ok .nodata, warns := [.openWarn r.url e],
          dsClosed := false }
      else
        { result := .error (.openError r.url e), warns := [],
          dsClosed := false }
  | none =>
      if res.count ≠ 1 then
        { result := .error (.bandCountError r.url res.count), warns := [],
          dsClosed := true }
      else
        match res.geomErr with
        | some e =>
            { result := .error (.propagated e), warns := [], dsClosed := false }
        | none =>
            if r.spec.vrt_params ≠ res.currentParams then
              match res.vrtErr with
              | some e =>
                  { result := .error (.propagated e), warns := [],
                    dsClosed := false }
              | none =>
                  if res.driver ∈ MULTITHREADED_DRIVER_ALLOWLIST then
                    { result := .ok (.threadLocal true), warns := [],
                      dsClosed := false }
                  else
                    { result := .ok (.singleThreaded true), warns := [],
                      dsClosed := false }
            else
              if res.driver ∈ MULTITHREADED_DRIVER_ALLOWLIST then
                { result := .ok (.threadLocal false), warns := [],
                  dsClosed := false }
              else
                { result := .ok (.singleThreaded false), warns := [],
                  dsClosed := false }

/-- The `dataset` property: return the memoized `_dataset`, or call `_open`
and memoize its result on success.  Returns the delegate or error, the updated
reader, the warnings, and whether this call successfully opened the
resource. -/
def AutoParallelRioReader.dataset (r : AutoParallelRioReader)
    (res : Resource) :
    Except RioError Delegate × AutoParallelRioReader × List Warn × Bool :=
  match r._dataset with
  | some d => (.ok d, r, [], false)
  | none =>
      let o := r._open res
      match o.result with
      | .ok d => (.ok d, { r with _dataset := some d }, o.warns, true)
      | .error e => (.error e, r, o.warns, false)

/-- A delegate's `read`.  `NodataReader.read` (modelled from the spec:
`nodata_reader.py` is not in src/) returns a plain window-shaped fill-value
buffer without touching the resource; the two real delegates perform a native
masked read, modelled by the world's read function `rd`. -/
def delegateRead (d : Delegate) (rd : Window → Except Exc NpRes)
    (fill : Int) (w : Window) : Except Exc NpRes :=
  match d with
  | .nodata =>
      .ok (.a2 (List.replicate w.height
        (List.replicate w.width { val := fill, m := false })))
  | .threadLocal _ => rd w
  | .singleThreaded _ => rd w

/-- Mask a 1-D row with a second row: numpy
`np.ma.masked_array(result[0], mask=result[1] == 0)` with the default
`keep_mask=True`, so the new mask is the union of the first row's own mask and
the zero-positions of the second row. -/
def mask1 (r0 r1 : List MCell) : List MCell :=
  List.zipWith (fun c a => { val := c.val, m := c.m || decide (a.val = (0 : Int)) })
    r0 r1

/-- 2-D version of `mask1`, row by row. -/
def mask2 (c0 c1 : List (List MCell)) : List (List MCell) :=
  List.zipWith mask1 c0 c1

/-- The numpy shape of a 3-D result (used in the unexpected-shape error). -/
def shapeOf3 (cs : List (List (List MCell))) : List Nat :=
  [cs.length, (cs.headD []).length, ((cs.headD []).headD []).length]

/-- The channel-count handling of `AutoParallelRioReader.read`: first
`result.shape[0] == 2` (alpha-channel masking), then `result.shape[0] == 1`
(drop the channel axis), then `result.ndim != 2` raises; a remaining 2-D
result passes through unchanged. -/
def bandHandling : NpRes → Except (List Nat) Mid
  | .a3 cs =>
      match cs with
      | [c0, c1] => .ok (.m2 (mask2 c0 c1))
      | [c0] => .ok (.m2 c0)
      | _ => .error (shapeOf3 cs)
  | .a2 g =>
      match g with
      | [r0, r1] => .ok (.m1 (mask1 r0 r1))
      | [r0] => .ok (.m1 r0)
      | _ => .ok (.m2 g)

/-- Map a cell function over a `Mid`. -/
def mapMid (f : MCell → MCell) : Mid → Mid
  | .m1 r => .m1 (r.map f)
  | .m2 g => .m2 (g.map (List.map f))

/-- The scale/offset application of `read`: `result *= scale` when
`scale != 1`, then `result += offset` when `offset != 0` (data values only;
masked flags are untouched). -/
def applyScaleOffset (s o : Int) (a : Mid) : Mid :=
  let a1 := if s ≠ 1 then
      mapMid (fun c => { val := c.val * s, m := c.m }) a
    else a
  if o ≠ 0 then mapMid (fun c => { val := c.val + o, m := c.m }) a1 else a1

/-- `np.ma.filled` on one cell: the fill value where masked, the data value
elsewhere (a plain, unmasked array is unchanged). -/
def filledCell (fill : Int) (c : MCell) : Int := if c.m then fill else c.val

/-- `np.ma.filled(result, fill_value=...)` over a `Mid`, producing the dense
output array. -/
def filledMid (fill : Int) : Mid → Out
  | .m1 r => .o1 (r.map (filledCell fill))
  | .m2 g => .o2 (g.map (List.map (filledCell fill)))

/-- The outcome of one `AutoParallelRioReader.read` call. -/
structure ReadStep where
  result : Except RioError Out
  warns : List Warn
  rdr : AutoParallelRioReader
  openedNow : Bool
  deriving Repr

/-- The body of `AutoParallelRioReader.read` after the delegate has been
resolved: the guarded delegate read (a recognized failure warns and returns a
window-shaped fill buffer, an unrecognized one raises a RuntimeError carrying
locator, window and cause), then the post-processing: channel handling,
scale/offset, and fill-value substitution for masked cells.  Returns the
result together with the warnings this stage emits. -/
def readCore (r : AutoParallelRioReader) (d : Delegate)
    (rd : Window → Except Exc NpRes) (w : Window) :
    Except RioError Out × List Warn :=
  match delegateRead d rd r.fill_value w with
  | .error e =>
      if exception_matches e r.errors_as_nodata then
        (.ok (.o2 (nodata_for_window w r.fill_value)), [.readWarn r.url w e])
      else
        (.error (.readError r.url w e), [])
  | .ok arr =>
      match bandHandling arr with
      | .error shp => (.error (.shapeError shp), [])
      | .ok mid =>
          (.ok (filledMid r.fill_value
            (applyScaleOffset r.scale_offset.1 r.scale_offset.2 mid)), [])

/-- `AutoParallelRioReader.read`: resolve the delegate through the `dataset`
property, then run `readCore` on it. -/
def AutoParallelRioReader.read (r : AutoParallelRioReader) (res : Resource)
    (rd : Window → Except Exc NpRes) (w : Window) : ReadStep :=
  match r.dataset res with
  | (.error e, r1, ws, op) =>
      { result := .error e, warns := ws, rdr := r1, openedNow := op }
  | (.ok d, r1, ws, op) =>
      { result := (readCore r d rd w).1, warns := ws ++ (readCore r d rd w).2,
        rdr := r1, openedNow := op }

/-- `AutoParallelRioReader.close`: drop the memoized delegate so a later read
reopens from scratch. -/
def AutoParallelRioReader.close (r : AutoParallelRioReader) :
    AutoParallelRioReader :=
  { r with _dataset := none }

/-- `AutoParallelRioReader.__getstate__`: exactly the eight constructor
fields. -/
def AutoParallelRioReader.getstate (r : AutoParallelRioReader) : PickleState :=
  { url := r.url, spec := r.spec, resampling := r.resampling,
    dtype := r.dtype, fill_value := r.fill_value,
    scale_offset := r.scale_offset, gdal_env := r.gdal_env,
    errors_as_nodata := r.errors_as_nodata }

/-- `AutoParallelRioReader.__setstate__`: re-run `__init__` on the snapshot
fields. -/
def AutoParallelRioReader.setstate (s : PickleState) : AutoParallelRioReader :=
  AutoParallelRioReader.init s.url s.spec s.resampling s.dtype s.fill_value
    s.scale_offset (some s.gdal_env) s.errors_as_nodata

/-- An operation performed on a reader in sequence: a read of a window, or a
close. -/
inductive Op where
  | readOp (w : Window)
  | closeOp
  deriving Repr, DecidableEq

/-- One sequential step over a reader together with a count of successful
opens of the underlying resource. -/
def stepOp (res : Resource) (rd : Window → Except Exc NpRes)
    (acc : AutoParallelRioReader × Nat) (op : Op) :
    AutoParallelRioReader × Nat :=
  match op with
  | .readOp w =>
      let st := acc.1.read res rd w
      (st.rdr, acc.2 + (if st.openedNow then 1 else 0))
  | .closeOp => (acc.1.close, acc.2)

/-- Run a sequence of operations on a reader, counting successful opens. -/
def runOps (res : Resource) (rd : Window → Except Exc NpRes)
    (r : AutoParallelRioReader) (ops : List Op) :
    AutoParallelRioReader × Nat :=
  ops.foldl (stepOp res rd) (r, 0)

/-- The per-cell value the spec's post-processing contract predicts: the fill
value where masked, `v * s + o` elsewhere. -/
def scaledCell (s o fill : Int) (c : MCell) : Int :=
  if c.m then fill else c.val * s + o

/-- 2-D rendering of `scaledCell` over a masked channel. -/
def render2 (s o fill : Int) (g : List (List MCell)) : List (List Int) :=
  g.map (List.map (scaledCell s o fill))

/-! Helper lemmas about the embedding. -/

theorem dataset_some (r : AutoParallelRioReader) (res : Resource)
    (d : Delegate) (h : r._dataset = some d) :
    r.dataset res = (.ok d, r, [], false) := by
  unfold AutoParallelRioReader.dataset
  rw [h]

theorem dataset_none_ok (r : AutoParallelRioReader) (res : Resource)
    (d : Delegate) (h : r._dataset = none)
    (ho : (r._open res).result = .ok d) :
    r.dataset res =
      (.ok d, { r with _dataset := some d }, (r._open res).warns, true) := by
  unfold AutoParallelRioReader.dataset
  rw [h]
  simp only [ho]

theorem dataset_none_err (r : AutoParallelRioReader) (res : Resource)
    (e : RioError) (h : r._dataset = none)
    (ho : (r._open res).result = .error e) :
    r.dataset res = (.error e, r, (r._open res).warns, false) := by
  unfold AutoParallelRioReader.dataset
  rw [h]
  simp only [ho]

theorem delegateRead_not_nodata (d : Delegate)
    (rd : Window → Except Exc NpRes) (fill : Int) (w : Window)
    (h : d ≠ .nodata) : delegateRead d rd fill w = rd w := by
  cases d with
  | nodata => exact absurd rfl h
  | threadLocal v => rfl
  | singleThreaded v => rfl

theorem mapMid_comp (f g : MCell → MCell) (a : Mid) :
    mapMid f (mapMid g a) = mapMid (fun c => f (g c)) a := by
  cases a <;> simp [mapMid, List.map_map, Function.comp_def]

theorem mapMid_congr (f g : MCell → MCell) (h : ∀ c, f c = g c) (a : Mid) :
    mapMid f a = mapMid g a := by
  have hfg : f = g := funext h
  rw [hfg]

theorem mapMid_id (a : Mid) : mapMid (fun c => c) a = a := by
  cases a <;> simp [mapMid]

theorem applyScaleOffset_eq (s o : Int) (a : Mid) :
    applyScaleOffset s o a =
      mapMid (fun c => { val := c.val * s + o, m := c.m }) a := by
  simp only [applyScaleOffset]
  split_ifs with ho hs hs
  · rw [mapMid_comp]
  · have hs1 : s = 1 := not_ne_iff.mp hs
    refine mapMid_congr _ _ ?_ a
    intro c
    rw [hs1, mul_one]
  · have ho0 : o = 0 := not_ne_iff.mp ho
    refine mapMid_congr _ _ ?_ a
    intro c
    rw [ho0, add_zero]
  · have hs1 : s = 1 := not_ne_iff.mp hs
    have ho0 : o = 0 := not_ne_iff.mp ho
    have hcell : ∀ c : MCell,
        ({ val := c.val * s + o, m := c.m } : MCell) = c := by
      intro c
      rw [hs1, ho0, mul_one, add_zero]
    exact ((mapMid_congr _ _ hcell a).trans (mapMid_id a)).symm

theorem filled_pipeline2 (s o fill : Int) (g : List (List MCell)) :
    filledMid fill (applyScaleOffset s o (.m2 g)) =
      .o2 (render2 s o fill g) := by
  rw [applyScaleOffset_eq]
  simp [filledMid, mapMid, render2, List.map_map, Function.comp_def,
    filledCell, scaledCell]

theorem bandHandling_other (cs : List (List (List MCell)))
    (h1 : cs.length ≠ 1) (h2 : cs.length ≠ 2) :
    bandHandling (.a3 cs) = .error (shapeOf3 cs) := by
  match cs with
  | [] => rfl
  | [c0] => exact absurd rfl h1
  | [c0, c1] => exact absurd rfl h2
  | c0 :: c1 :: c2 :: t => rfl

theorem read_result_some (r : AutoParallelRioReader) (res : Resource)
    (rd : Window → Except Exc NpRes) (w : Window) (d : Delegate)
    (h : r._dataset = some d) :
    r.read res rd w =
      { result := (readCore r d rd w).1, warns := (readCore r d rd w).2,
        rdr := r, openedNow := false } := by
  unfold AutoParallelRioReader.read
  rw [dataset_some r res d h]
  simp

theorem read_result_first_ok (r : AutoParallelRioReader) (res : Resource)
    (rd : Window → Except Exc NpRes) (w : Window) (d : Delegate)
    (h : r._dataset = none) (ho : (r._open res).result = .ok d) :
    r.read res rd w =
      { result := (readCore r d rd w).1,
        warns := (r._open res).warns ++ (readCore r d rd w).2,
        rdr := { r with _dataset := some d }, openedNow := true } := by
  unfold AutoParallelRioReader.read
  rw [dataset_none_ok r res d h ho]

theorem read_result_first_err (r : AutoParallelRioReader) (res : Resource)
    (rd : Window → Except Exc NpRes) (w : Window) (e : RioError)
    (h : r._dataset = none) (ho : (r._open res).result = .error e) :
    r.read res rd w =
      { result := .error e, warns := (r._open res).warns,
        rdr := r, openedNow := false } := by
  unfold AutoParallelRioReader.read
  rw [dataset_none_err r res e h ho]

theorem readCore_set_dataset (r : AutoParallelRioReader)
    (ds : Option Delegate) (d : Delegate) (rd : Window → Except Exc NpRes)
    (w : Window) :
    readCore { r with _dataset := ds } d rd w = readCore r d rd w := rfl

theorem open_set_dataset (r : AutoParallelRioReader) (ds : Option Delegate)
    (res : Resource) :
    AutoParallelRioReader._open { r with _dataset := ds } res =
      r._open res := rfl

/-! Claim theorems. -/

/-- C2: on a successfully opened reader configured with scale `s ≠ 1` and
offset `o ≠ 0`, a delegate read that succeeds with a single-channel masked
result yields, at every valid position with pre-scale value `v`, exactly
`v * s + o`, and at every masked position exactly the configured fill value
(the fill value itself is not scaled or offset) — this is what
`render2 s o fill` says cell for cell. -/
theorem C2_scale_offset_applied (r : AutoParallelRioReader) (res : Resource)
    (rd : Window → Except Exc NpRes) (w : Window) (d : Delegate)
    (c0 : List (List MCell)) (s o : Int)
    (hd : r._dataset = some d) (hnd : d ≠ .nodata)
    (hso : r.scale_offset = (s, o)) (hs : s ≠ 1) (ho : o ≠ 0)
    (hread : rd w = .ok (.a3 [c0])) :
    (r.read res rd w).result = .ok (.o2 (render2 s o r.fill_value c0)) := by
  rw [read_result_some r res rd w d hd]
  simp only [readCore, delegateRead_not_nodata d rd r.fill_value w hnd, hread,
    bandHandling, hso]
  exact congrArg Except.ok (filled_pipeline2 s o r.fill_value c0)

/-- C6: when the native open succeeds but the band count is not exactly 1,
`_open` always fails — for every recognized-error configuration (the reader
`r`, including `errors_as_nodata`, is universally quantified) — with an error
carrying the band count and the locator, the just-opened dataset is closed
before raising, and no degradation warning is emitted. -/
theorem C6_band_count_fatal (r : AutoParallelRioReader) (res : Resource)
    (hopen : res.openErr = none) (hcount : res.count ≠ 1) :
    (r._open res).result = .error (.bandCountError r.url res.count) ∧
    (r._open res).dsClosed = true ∧ (r._open res).warns = [] := by
  unfold AutoParallelRioReader._open
  rw [hopen]
  simp [hcount]

/-- C7: for a successfully opened resource the delegate strategy is chosen
solely by driver identity: a driver in `MULTITHREADED_DRIVER_ALLOWLIST` gets a
`ThreadLocalRioDataset`, any other driver a `SingleThreadedRioDataset` (the
VRT flag only records whether the native geometry differed from the spec). -/
theorem C7_strategy_by_driver (r : AutoParallelRioReader) (res : Resource)
    (hopen : res.openErr = none) (hcount : res.count = 1)
    (hgeom : res.geomErr = none)
    (hvrt : r.spec.vrt_params ≠ res.currentParams → res.vrtErr = none) :
    (res.driver ∈ MULTITHREADED_DRIVER_ALLOWLIST →
        (r._open res).result =
          .ok (.threadLocal (decide (r.spec.vrt_params ≠ res.currentParams)))) ∧
    (res.driver ∉ MULTITHREADED_DRIVER_ALLOWLIST →
        (r._open res).result =
          .ok (.singleThreaded
            (decide (r.spec.vrt_params ≠ res.currentParams)))) := by
  unfold AutoParallelRioReader._open
  rw [hopen, hgeom]
  simp only [hcount, ne_eq, not_true_eq_false, if_false, ite_false]
  by_cases hv : r.spec.vrt_params = res.currentParams
  · constructor
    · intro hdrv
      simp [hv, hdrv]
    · intro hdrv
      simp [hv, hdrv]
  · rw [hvrt hv]
    constructor
    · intro hdrv
      simp [hv, hdrv]
    · intro hdrv
      simp [hv, hdrv]

/-- C10: recognized-error degradation at open time applies only to the native
open itself.  An exception raised during geometry inspection or while
constructing the `WarpedVRT` propagates unwrapped to the caller even when it
matches the recognized-error set; `_open` never degrades to the
`NodataReader` delegate for such failures. -/
theorem C10_late_open_errors_propagate (r : AutoParallelRioReader)
    (res : Resource) (e : Exc)
    (hmatch : exception_matches e r.errors_as_nodata = true)
    (hopen : res.openErr = none) (hcount : res.count = 1) :
    (res.geomErr = some e →
        (r._open res).result = .error (.propagated e)) ∧
    (res.geomErr = none → r.spec.vrt_params ≠ res.currentParams →
        res.vrtErr = some e →
        (r._open res).result = .error (.propagated e)) := by
  unfold AutoParallelRioReader._open
  rw [hopen]
  simp only [hcount, ne_eq, not_true_eq_false, if_false, ite_false]
  constructor
  · intro hg
    rw [hg]
  · intro hg hv hvrt
    rw [hg]
    simp [hv, hvrt]

/-- C3: after a successful delegate read on an opened reader returning a
native 3-D result: with two channels the output is the first channel,
additionally masked wherever the second (alpha) channel is zero (numpy's
default `keep_mask=True` keeps the first channel's own mask, so `mask2` is
the union); with one channel that channel is used directly; any other channel
count makes the call raise the unexpected-shape error rather than return. -/
theorem C3_channel_handling (r : AutoParallelRioReader) (res : Resource)
    (rd : Window → Except Exc NpRes) (w : Window) (d : Delegate)
    (hd : r._dataset = some d) (hnd : d ≠ .nodata) :
    (∀ c0 c1 : List (List MCell), rd w = .ok (.a3 [c0, c1]) →
        (r.read res rd w).result =
          .ok (.o2 (render2 r.scale_offset.1 r.scale_offset.2 r.fill_value
            (mask2 c0 c1)))) ∧
    (∀ c0 : List (List MCell), rd w = .ok (.a3 [c0]) →
        (r.read res rd w).result =
          .ok (.o2 (render2 r.scale_offset.1 r.scale_offset.2 r.fill_value
            c0))) ∧
    (∀ cs : List (List (List MCell)), rd w = .ok (.a3 cs) →
        cs.length ≠ 1 → cs.length ≠ 2 →
        (r.read res rd w).result = .error (.shapeError (shapeOf3 cs))) := by
  refine ⟨?_, ?_, ?_⟩
  · intro c0 c1 hread
    rw [read_result_some r res rd w d hd]
    simp only [readCore, delegateRead_not_nodata d rd r.fill_value w hnd,
      hread, bandHandling]
    exact congrArg Except.ok
      (filled_pipeline2 r.scale_offset.1 r.scale_offset.2 r.fill_value
        (mask2 c0 c1))
  · intro c0 hread
    rw [read_result_some r res rd w d hd]
    simp only [readCore, delegateRead_not_nodata d rd r.fill_value w hnd,
      hread, bandHandling]
    exact congrArg Except.ok
      (filled_pipeline2 r.scale_offset.1 r.scale_offset.2 r.fill_value c0)
  · intro cs hread h1 h2
    rw [read_result_some r res rd w d hd]
    simp only [readCore, delegateRead_not_nodata d rd r.fill_value w hnd,
      hread, bandHandling_other cs h1 h2]

/-- C4: when the delegate read on an opened reader raises: a failure matching
the recognized-error set warns (the warning carries locator, window and
cause) and returns a window-shaped fill-value buffer; any other failure makes
the call raise a RuntimeError carrying the locator, the window and the
original cause. -/
theorem C4_read_failure_policy (r : AutoParallelRioReader) (res : Resource)
    (rd : Window → Except Exc NpRes) (w : Window) (d : Delegate) (e : Exc)
    (hd : r._dataset = some d) (hnd : d ≠ .nodata)
    (hfail : rd w = .error e) :
    (exception_matches e r.errors_as_nodata = true →
        (r.read res rd w).result =
          .ok (.o2 (nodata_for_window w r.fill_value)) ∧
        (r.read res rd w).warns = [.readWarn r.url w e]) ∧
    (exception_matches e r.errors_as_nodata = false →
        (r.read res rd w).result = .error (.readError r.url w e)) := by
  constructor
  · intro hm
    rw [read_result_some r res rd w d hd]
    simp only [readCore, delegateRead_not_nodata d rd r.fill_value w hnd,
      hfail, hm]
    exact ⟨rfl, rfl⟩
  · intro hm
    rw [read_result_some r res rd w d hd]
    simp only [readCore, delegateRead_not_nodata d rd r.fill_value w hnd,
      hfail, hm]
    rfl

/-- C5: a recognized read-time failure leaves the reader completely unchanged
(the returned reader is the very same value, so no field — including the
memoized delegate — was mutated), and a subsequent read on that same reader
whose delegate read succeeds returns the real processed data: degradation is
per-call, never memoized. -/
theorem C5_degradation_not_memoized (r : AutoParallelRioReader)
    (res : Resource) (rd rd2 : Window → Except Exc NpRes) (w w2 : Window)
    (d : Delegate) (e : Exc) (c : List (List MCell))
    (hd : r._dataset = some d) (hnd : d ≠ .nodata)
    (hfail : rd w = .error e)
    (hmatch : exception_matches e r.errors_as_nodata = true) :
    (r.read res rd w).rdr = r ∧
    (rd2 w2 = .ok (.a3 [c]) →
        ((r.read res rd w).rdr.read res rd2 w2).result =
          .ok (.o2 (render2 r.scale_offset.1 r.scale_offset.2 r.fill_value
            c))) := by
  have hrdr : (r.read res rd w).rdr = r := by
    rw [read_result_some r res rd w d hd]
  refine ⟨hrdr, ?_⟩
  intro hread2
  rw [hrdr, read_result_some r res rd2 w2 d hd]
  simp only [readCore, delegateRead_not_nodata d rd2 r.fill_value w2 hnd,
    hread2, bandHandling]
  exact congrArg Except.ok
    (filled_pipeline2 r.scale_offset.1 r.scale_offset.2 r.fill_value c)

theorem runOps_opens_le_one (res : Resource)
    (rd : Window → Except Exc NpRes) (ops : List Op)
    (hops : Op.closeOp ∉ ops) (p : AutoParallelRioReader × Nat)
    (h1 : p.2 ≤ 1) (h2 : p.1._dataset = none → p.2 = 0) :
    (ops.foldl (stepOp res rd) p).2 ≤ 1 := by
  induction ops generalizing p with
  | nil => simpa using h1
  | cons op t ih =>
      have ht : Op.closeOp ∉ t := fun hmem =>
        hops (List.mem_cons_of_mem op hmem)
      cases op with
      | closeOp => exact absurd (List.mem_cons_self _ _) hops
      | readOp w =>
          rw [List.foldl_cons]
          cases hds : p.1._dataset with
          | some d =>
              have hr := read_result_some p.1 res rd w d hds
              refine ih ht (stepOp res rd p (Op.readOp w)) ?_ ?_
              · simpa [stepOp, hr] using h1
              · simpa [stepOp, hr] using h2
          | none =>
              cases ho : (p.1._open res).result with
              | ok d =>
                  have hr := read_result_first_ok p.1 res rd w d hds ho
                  refine ih ht (stepOp res rd p (Op.readOp w)) ?_ ?_
                  · simp [stepOp, hr, h2 hds]
                  · intro hcontra
                    simp [stepOp, hr] at hcontra
              | error e =>
                  have hr := read_result_first_err p.1 res rd w e hds ho
                  refine ih ht (stepOp res rd p (Op.readOp w)) ?_ ?_
                  · simpa [stepOp, hr] using h1
                  · simpa [stepOp, hr] using h2

theorem set_dataset_none_self (r : AutoParallelRioReader)
    (h : r._dataset = none) : { r with _dataset := none } = r := by
  cases r
  simp_all

/-- C8: construction performs no I/O and leaves the reader unopened; on an
already-opened reader every read keeps the same memoized delegate and opens
nothing; and along any sequence of reads with no intervening close the
underlying resource is successfully opened at most once (the `_dataset_lock`
is modelled by the atomicity of each sequential step). -/
theorem C8_lazy_open_at_most_once (url : String) (spec : RasterSpecM)
    (resampling dtype : Nat) (fill_value : Int) (scale_offset : Int × Int)
    (gdal_env : Option Nat) (errors_as_nodata : List Nat) (res : Resource)
    (rd : Window → Except Exc NpRes) :
    (AutoParallelRioReader.init url spec resampling dtype fill_value
      scale_offset gdal_env errors_as_nodata)._dataset = none ∧
    (∀ (r : AutoParallelRioReader) (d : Delegate) (w : Window),
        r._dataset = some d →
        (r.read res rd w).rdr = r ∧ (r.read res rd w).openedNow = false) ∧
    (∀ ops : List Op, Op.closeOp ∉ ops →
        (runOps res rd
          (AutoParallelRioReader.init url spec resampling dtype fill_value
            scale_offset gdal_env errors_as_nodata) ops).2 ≤ 1) := by
  refine ⟨rfl, ?_, ?_⟩
  · intro r d w hd
    rw [read_result_some r res rd w d hd]
    exact ⟨rfl, rfl⟩
  · intro ops hops
    unfold runOps
    exact runOps_opens_le_one res rd ops hops _ (by simp) (fun _ => rfl)

/-- C9: the pickle snapshot holds exactly the eight constructor fields, so
reconstructing from it yields the reader with identical constructor fields
and no live handle (`_dataset = None`), and — as long as the resource still
behaves the same — reading the same window through the reconstructed reader
returns the same data as through the original (whose memoized delegate, if
any, is the one its own `_open` would produce). -/
theorem C9_pickle_roundtrip (r : AutoParallelRioReader) (res : Resource)
    (rd : Window → Except Exc NpRes)
    (hcons : r._dataset = none ∨
      ∃ d, (r._open res).result = .ok d ∧ r._dataset = some d) :
    AutoParallelRioReader.setstate r.getstate = { r with _dataset := none } ∧
    (AutoParallelRioReader.setstate r.getstate)._dataset = none ∧
    ∀ w, ((AutoParallelRioReader.setstate r.getstate).read res rd w).result =
      (r.read res rd w).result := by
  have hset : AutoParallelRioReader.setstate r.getstate =
      { r with _dataset := none } := rfl
  refine ⟨hset, by rw [hset], ?_⟩
  intro w
  rw [hset]
  rcases hcons with hnone | ⟨d, hok, hsome⟩
  · rw [set_dataset_none_self r hnone]
  · have hopen2 :
        (AutoParallelRioReader._open { r with _dataset := none } res).result =
          .ok d := by
      rw [open_set_dataset]
      exact hok
    rw [read_result_first_ok { r with _dataset := none } res rd w d rfl
      hopen2, read_result_some r res rd w d hsome]
    simp [readCore_set_dataset]

/-- Concrete input exhibiting the C1 divergence: a reader whose locator fails
to open with a recognized error, configured with fill value 5 and
scale/offset (2, 0). -/
def rC1 : AutoParallelRioReader :=
  AutoParallelRioReader.init "s3://bucket/missing.tif" ⟨0⟩ 0 0 5 (2, 0)
    none [404]

/-- The resource at `rC1`'s locator: the native open raises error 404. -/
def resC1 : Resource :=
  { openErr := some ⟨404⟩, count := 1, driver := "GTiff"
    currentParams := 0, geomErr := none, vrtErr := none }

/-- Native reads never happen for `rC1` (the delegate is the NodataReader). -/
def rdC1 : Window → Except Exc NpRes := fun _ => .error ⟨999⟩

/-- C1 (failing evaluation): with a recognized open failure, fill value 5 and
scale 2, `read` of a 3×3 window does warn and does not throw, but returns a
buffer of `fill * scale = 10`, not of the fill value 5 — the degraded
`NodataReader` path pipes the plain fill buffer through the scale/offset
step; and `read` of a 2×2 window collapses to a 1-D length-2 buffer because
the two fill rows are mistaken for a (data, alpha) channel pair.  The claim's
guarantee (window-shaped buffer entirely of the fill value) is the code's own
stated intent, so this is a code bug, not a spec error. -/
theorem C1_degraded_read_scales_fill :
    (rC1.read resC1 rdC1 ⟨0, 0, 3, 3⟩).result =
      .ok (.o2 (List.replicate 3 (List.replicate 3 (10 : Int)))) ∧
    rC1.fill_value = 5 ∧ (10 : Int) ≠ 5 ∧
    (rC1.read resC1 rdC1 ⟨0, 0, 3, 3⟩).warns =
      [.openWarn "s3://bucket/missing.tif" ⟨404⟩] ∧
    (rC1.read resC1 rdC1 ⟨0, 0, 2, 2⟩).result =
      .ok (.o1 [(10 : Int), 10]) := by
  decide

/-! Concrete instances used by the witness theorems. -/

/-- An opened reader (fill value 9, scale 2, offset 3, recognized error 404)
whose memoized delegate is a `SingleThreadedRioDataset`. -/
def rA : AutoParallelRioReader :=
  { url := "a.tif", spec := ⟨1⟩, resampling := 0, dtype := 0, fill_value := 9,
    scale_offset := (2, 3), gdal_env := 0, errors_as_nodata := [404],
    _dataset := some (.singleThreaded false) }

/-- A healthy single-band GTiff resource whose geometry matches the spec. -/
def resA : Resource :=
  { openErr := none, count := 1, driver := "GTiff", currentParams := 1,
    geomErr := none, vrtErr := none }

/-- A 1×2 window. -/
def wA : Window := ⟨0, 0, 1, 2⟩

/-- A single 1×2 data channel: one valid cell (4), one masked cell (7). -/
def c0A : List (List MCell) :=
  [[{ val := 4, m := false }, { val := 7, m := true }]]

/-- A 1×2 alpha channel: zero (invalid) then five (valid). -/
def c1A : List (List MCell) :=
  [[{ val := 0, m := false }, { val := 5, m := false }]]

/-- A native read returning the single channel `c0A`. -/
def rdA : Window → Except Exc NpRes := fun _ => .ok (.a3 [c0A])

/-- A native read returning data plus alpha channels. -/
def rdB : Window → Except Exc NpRes := fun _ => .ok (.a3 [c0A, c1A])

/-- A native read that raises the recognized error 404. -/
def rdErr : Window → Except Exc NpRes := fun _ => .error ⟨404⟩

/-- A resource whose open succeeds but which has three bands. -/
def resBad : Resource :=
  { openErr := none, count := 3, driver := "HDF5", currentParams := 0,
    geomErr := none, vrtErr := none }

/-- `rA` with the delegate its own `_open` would produce on `resA`. -/
def rA9 : AutoParallelRioReader := { rA with _dataset := some (.threadLocal false) }

/-- A resource whose geometry inspection raises error 404. -/
def resGeom : Resource :=
  { openErr := none, count := 1, driver := "GTiff", currentParams := 0,
    geomErr := some ⟨404⟩, vrtErr := none }

/-- Three reads of the same window, no close. -/
def opsC8 : List Op := [.readOp wA, .readOp wA, .readOp wA]

/-! Witness theorems, one per hypothesized claim theorem. -/

/-- Witness for C2 at a concrete opened reader, window and channel. -/
theorem C2_scale_offset_applied_witness :
    rA._dataset = some (.singleThreaded false) ∧
    Delegate.singleThreaded false ≠ Delegate.nodata ∧
    rA.scale_offset = (2, 3) ∧ (2 : Int) ≠ 1 ∧ (3 : Int) ≠ 0 ∧
    rdA wA = .ok (.a3 [c0A]) ∧
    (rA.read resA rdA wA).result = .ok (.o2 (render2 2 3 rA.fill_value c0A)) :=
  ⟨rfl, by decide, rfl, by decide, by decide, rfl,
    C2_scale_offset_applied rA resA rdA wA (.singleThreaded false) c0A 2 3
      rfl (by decide) rfl (by decide) (by decide) rfl⟩

/-- Witness for C3 (two-channel case) at a concrete opened reader. -/
theorem C3_channel_handling_witness :
    rA._dataset = some (.singleThreaded false) ∧
    Delegate.singleThreaded false ≠ Delegate.nodata ∧
    rdB wA = .ok (.a3 [c0A, c1A]) ∧
    (rA.read resA rdB wA).result =
      .ok (.o2 (render2 rA.scale_offset.1 rA.scale_offset.2 rA.fill_value
        (mask2 c0A c1A))) :=
  ⟨rfl, by decide, rfl,
    (C3_channel_handling rA resA rdB wA (.singleThreaded false) rfl
      (by decide)).1 c0A c1A rfl⟩

/-- Witness for C4 (recognized read failure) at a concrete opened reader. -/
theorem C4_read_failure_policy_witness :
    rA._dataset = some (.singleThreaded false) ∧
    Delegate.singleThreaded false ≠ Delegate.nodata ∧
    rdErr wA = .error ⟨404⟩ ∧
    ((rA.read resA rdErr wA).result =
        .ok (.o2 (nodata_for_window wA rA.fill_value)) ∧
      (rA.read resA rdErr wA).warns = [.readWarn rA.url wA ⟨404⟩]) :=
  ⟨rfl, by decide, rfl,
    (C4_read_failure_policy rA resA rdErr wA (.singleThreaded false) ⟨404⟩
      rfl (by decide) rfl).1 (by decide)⟩

/-- Witness for C5: a recognized failing read then a succeeding read. -/
theorem C5_degradation_not_memoized_witness :
    rA._dataset = some (.singleThreaded false) ∧
    Delegate.singleThreaded false ≠ Delegate.nodata ∧
    rdErr wA = .error ⟨404⟩ ∧
    exception_matches ⟨404⟩ rA.errors_as_nodata = true ∧
    rdA wA = .ok (.a3 [c0A]) ∧
    ((rA.read resA rdErr wA).rdr = rA ∧
      ((rA.read resA rdErr wA).rdr.read resA rdA wA).result =
        .ok (.o2 (render2 rA.scale_offset.1 rA.scale_offset.2 rA.fill_value
          c0A))) :=
  ⟨rfl, by decide, rfl, by decide, rfl,
    (C5_degradation_not_memoized rA resA rdErr rdA wA wA
      (.singleThreaded false) ⟨404⟩ c0A rfl (by decide) rfl (by decide)).1,
    (C5_degradation_not_memoized rA resA rdErr rdA wA wA
      (.singleThreaded false) ⟨404⟩ c0A rfl (by decide) rfl (by decide)).2
      rfl⟩

/-- Witness for C6 at a three-band resource. -/
theorem C6_band_count_fatal_witness :
    resBad.openErr = none ∧ resBad.count ≠ 1 ∧
    ((rA._open resBad).result =
        .error (.bandCountError rA.url resBad.count) ∧
      (rA._open resBad).dsClosed = true ∧ (rA._open resBad).warns = []) :=
  ⟨rfl, by decide, C6_band_count_fatal rA resBad rfl (by decide)⟩

/-- Witness for C7 at a GTiff resource needing no VRT. -/
theorem C7_strategy_by_driver_witness :
    resA.openErr = none ∧ resA.count = 1 ∧ resA.geomErr = none ∧
    (rA.spec.vrt_params ≠ resA.currentParams → resA.vrtErr = none) ∧
    (rA._open resA).result =
      .ok (.threadLocal (decide (rA.spec.vrt_params ≠ resA.currentParams))) :=
  ⟨rfl, rfl, rfl, by decide,
    (C7_strategy_by_driver rA resA rfl rfl rfl (by decide)).1 (by decide)⟩

/-- Witness for C8: a fresh reader, three reads, no close. -/
theorem C8_lazy_open_at_most_once_witness :
    rA._dataset = some (.singleThreaded false) ∧
    Op.closeOp ∉ opsC8 ∧
    ((AutoParallelRioReader.init "a.tif" ⟨1⟩ 0 0 9 (2, 3) none
        [404])._dataset = none ∧
      ((rA.read resA rdA wA).rdr = rA ∧
        (rA.read resA rdA wA).openedNow = false) ∧
      (runOps resA rdA
        (AutoParallelRioReader.init "a.tif" ⟨1⟩ 0 0 9 (2, 3) none [404])
        opsC8).2 ≤ 1) :=
  ⟨rfl, by decide,
    (C8_lazy_open_at_most_once "a.tif" ⟨1⟩ 0 0 9 (2, 3) none [404] resA
      rdA).1,
    (C8_lazy_open_at_most_once "a.tif" ⟨1⟩ 0 0 9 (2, 3) none [404] resA
      rdA).2.1 rA (.singleThreaded false) wA rfl,
    (C8_lazy_open_at_most_once "a.tif" ⟨1⟩ 0 0 9 (2, 3) none [404] resA
      rdA).2.2 opsC8 (by decide)⟩

/-- Witness for C9 at an opened reader whose delegate matches its `_open`. -/
theorem C9_pickle_roundtrip_witness :
    (rA9._dataset = none ∨
      ∃ d, (rA9._open resA).result = .ok d ∧ rA9._dataset = some d) ∧
    (AutoParallelRioReader.setstate rA9.getstate =
        { rA9 with _dataset := none } ∧
      (AutoParallelRioReader.setstate rA9.getstate)._dataset = none ∧
      ((AutoParallelRioReader.setstate rA9.getstate).read resA rdA
          wA).result = (rA9.read resA rdA wA).result) :=
  ⟨Or.inr ⟨.threadLocal false, by decide, rfl⟩,
    (C9_pickle_roundtrip rA9 resA rdA
      (Or.inr ⟨.threadLocal false, by decide, rfl⟩)).1,
    (C9_pickle_roundtrip rA9 resA rdA
      (Or.inr ⟨.threadLocal false, by decide, rfl⟩)).2.1,
    (C9_pickle_roundtrip rA9 resA rdA
      (Or.inr ⟨.threadLocal false, by decide, rfl⟩)).2.2 wA⟩

/-- Witness for C10 at a resource whose geometry inspection raises a
recognized error. -/
theorem C10_late_open_errors_propagate_witness :
    exception_matches ⟨404⟩ rA.errors_as_nodata = true ∧
    resGeom.openErr = none ∧ resGeom.count = 1 ∧
    resGeom.geomErr = some ⟨404⟩ ∧
    (rA._open resGeom).result = .error (.propagated ⟨404⟩) :=
  ⟨by decide, rfl, rfl, rfl,
    (C10_late_open_errors_propagate rA resGeom ⟨404⟩ (by decide) rfl rfl).1
      rfl⟩

end Stackstac
